import Mathlib

/-!
Shallow embedding of `gpu_checker.py` (unity-gpu-checker).

Strings are modelled as `List Char`.  External command execution
(`subprocess.run`) is modelled by an oracle `exec : List Char → ExecResult`
mapping the command line to the captured stdout/stderr/exit status.
Python exceptions are modelled with `Except`.
-/

/-- Convert a Lean string literal to the `List Char` representation. -/
def strL (s : String) : List Char := s.toList

/-- Model of Python `str.split(sep)` for a single-character separator:
`"".split(sep) = ['']`, and separators delimit (possibly empty) fields. -/
def pySplit (sep : Char) : List Char → List (List Char)
  | [] => [[]]
  | c :: cs =>
    let rest := pySplit sep cs
    if c = sep then [] :: rest
    else (c :: rest.headD []) :: rest.tail

/-- Source `purge_element`: `list(filter(lambda elem: elem != elem_to_purge, _list))`. -/
def purge_element {α : Type} [BEq α] (l : List α) (elem_to_purge : α) : List α :=
  l.filter (fun elem => elem != elem_to_purge)

/-- Source `multiline_str`: concatenate each argument followed by a newline,
then drop the final character. -/
def multiline_str (argv : List (List Char)) : List Char :=
  ((argv.map (fun arg => arg ++ [newlineChar])).flatten).dropLast
where newlineChar : Char := Char.ofNat 10

/-- Python whitespace characters as classified by `str.strip()` / `str.split()`
(restricted to the ASCII whitespace relevant here). -/
def isPyWs (c : Char) : Bool :=
  c == ' ' || c == Char.ofNat 9 || c == Char.ofNat 10 || c == Char.ofNat 13 ||
    c == Char.ofNat 11 || c == Char.ofNat 12

/-- Model of Python `str.strip()`: remove leading and trailing whitespace. -/
def pyStrip (s : List Char) : List Char :=
  ((s.dropWhile isPyWs).reverse.dropWhile isPyWs).reverse

/-- ASCII decimal digit test. -/
def isDigitCh (c : Char) : Bool := '0' ≤ c && c ≤ '9'

/-- Value of a nonempty all-digit character list. -/
def digitsToNat (l : List Char) : Nat :=
  l.foldl (fun n c => 10 * n + (c.toNat - 48)) 0

/-- Parse a nonempty ASCII digit string. -/
def parseNatDigits (l : List Char) : Option Nat :=
  if l ≠ [] ∧ l.all isDigitCh then some (digitsToNat l) else none

/-- Model of Python `int(s)` on decimal literals: strip whitespace, optional
sign, then a nonempty digit string; anything else raises `ValueError`
(modelled as `none`).  Underscore separators and non-ASCII digits, which
Python also accepts, are not modelled; no claim depends on them. -/
def pyParseInt (s : List Char) : Option Int :=
  match pyStrip s with
  | [] => none
  | c :: cs =>
    if c = '+' then (parseNatDigits cs).map Int.ofNat
    else if c = '-' then (parseNatDigits cs).map (fun n => -(Int.ofNat n))
    else (parseNatDigits (c :: cs)).map Int.ofNat

/-- Source `str_to_bool` true-list (compared against `string.lower()`). -/
def true_strings : List (List Char) :=
  [strL "true", strL "1", strL "t", strL "y", strL "yes"]

/-- Source `str_to_bool` false-list (compared against `string.lower()`). -/
def false_strings : List (List Char) :=
  [strL "false", strL "0", strL "f", strL "n", strL "no"]

/-- Source `str_to_bool`: membership of the lowercased string in the two
lists, `None` otherwise.  `str.lower()` is modelled by ASCII `Char.toLower`. -/
def str_to_bool (s : List Char) : Option Bool :=
  let l := s.map Char.toLower
  if l ∈ true_strings then some true
  else if l ∈ false_strings then some false
  else none

/-- Python truthiness of a `None`-or-bool value, as applied at the use sites
of `do_send_email` (`if do_send_email:` and `... and do_send_email`). -/
def pyTruthy (o : Option Bool) : Bool := o.getD false

/-- Captured result of one `subprocess.run` call: the fields `ShellRunner`
stores (stdout, stderr, return code). -/
structure ExecResult where
  shell_output : List Char
  shell_error : List Char
  exit_code : Int
deriving DecidableEq

/-- `ShellRunner.success`: `self.exit_code == 0`. -/
def shellSuccess (r : ExecResult) : Bool := r.exit_code == 0

/-- Python `str(bool)` rendering used in the report f-string. -/
def pyShowBool (b : Bool) : List Char := if b then strL "True" else strL "False"

/-- `ShellRunner.command_report`: the `multiline_str` block built in
`run_shell_command`. -/
def command_report (command : List Char) (r : ExecResult) : List Char :=
  multiline_str
    [ strL "command:",
      command,
      strL "command success: " ++ pyShowBool (shellSuccess r),
      [],
      strL "stdout:",
      r.shell_output,
      [],
      strL "stderr:",
      r.shell_error,
      [],
      strL "exit code:",
      strL (toString r.exit_code) ]

/-- The configuration values read from `CONFIG` that the probed functions use. -/
structure Config where
  ssh_user : List Char
  ssh_keyfile : List Char
  email_to : List Char
  email_from : List Char
  email_signature : List Char
deriving DecidableEq

/-- One `send_email(to, _from, subject, body)` call, recorded at the call
boundary (the signature is appended to the body inside `send_email`). -/
structure Email where
  to_addr : List Char
  from_addr : List Char
  subject : List Char
  body : List Char
deriving DecidableEq

/-- Python exceptions that the probed code can raise. -/
inductive PyError where
  | indexError
  | valueError
deriving DecidableEq

/-- The `sinfo` query command built in `find_slurm_nodes`. -/
def sinfo_command (states partitions : List Char) : List Char :=
  strL "sinfo --states=" ++ states ++ strL " --partition=" ++ partitions ++
    strL " -N --noheader"

/-- Line splitting in `find_slurm_nodes` / `check_gpu`:
`[line.replace('\n', '') for line in shell_output.split('\n')]`. -/
def pyLines (shell_output : List Char) : List (List Char) :=
  (pySplit (Char.ofNat 10) shell_output).map
    (fun line => line.filter (fun c => c != Char.ofNat 10))

/-- Node extraction in `find_slurm_nodes` from the split lines:
purge empty lines, then `line.split(' ')[0]` for each remaining line.
(`pySplit` never returns `[]`, so `headD []` is exactly the `[0]` index.) -/
def nodesOfLines (lines : List (List Char)) : List (List Char) :=
  (purge_element lines []).map (fun line => (pySplit ' ' line).headD [])

/-- The node list `find_slurm_nodes` computes from the captured stdout. -/
def find_slurm_nodes_nodes (shell_output : List Char) : List (List Char) :=
  nodesOfLines (pyLines shell_output)

/-- Source `find_slurm_nodes`: raise (modelled as `Except.error` carrying the
command report) when the `sinfo` command fails, otherwise return the parsed
node list (logging, not an error, when it is empty). -/
def find_slurm_nodes (exec : List Char → ExecResult) (states partitions : List Char) :
    Except (List Char) (List (List Char)) :=
  let command := sinfo_command states partitions
  let r := exec command
  if shellSuccess r then Except.ok (find_slurm_nodes_nodes r.shell_output)
  else Except.error (command_report command r)

/-- The `scontrol` drain command built in `drain_node`. -/
def drain_command (node reason : List Char) : List Char :=
  strL "scontrol update nodename=" ++ node ++ strL " state=drain reason=\"" ++
    reason ++ strL "\""

/-- Source `drain_node`: run the drain command and, when `do_send_email`,
send exactly one email whose subject depends on the command's success.
The Python function has no `return` statement, so its return value is `None`,
modelled as `(none : Option Bool)`; the recorded `send_email` calls are
returned alongside. -/
def drain_node (cfg : Config) (exec : List Char → ExecResult)
    (node reason : List Char) (do_send_email : Bool) : Option Bool × List Email :=
  let command := drain_command node reason
  let r := exec command
  let emails :=
    if do_send_email then
      if shellSuccess r then
        [⟨cfg.email_to, cfg.email_from,
          strL "gpu-checker has drained node " ++ node, command_report command r⟩]
      else
        [⟨cfg.email_to, cfg.email_from,
          strL "ACTION REQUIRED: gpu-checker wanted to drain node " ++ node ++
            strL ", but failed", command_report command r⟩]
    else []
  (none, emails)

/-- The ssh probe command built in `check_gpu`.  The `&& echo $? || echo $?`
is interpreted by the local shell (`shell=True`), not the remote one. -/
def ssh_command (cfg : Config) (node : List Char) : List Char :=
  strL "ssh " ++ cfg.ssh_user ++ strL "@" ++ node ++
    strL " -o \"StrictHostKeyChecking=no\" -i " ++ cfg.ssh_keyfile ++
    strL " nvidia-smi && echo $? || echo $?"

/-- The purged line list `shell_output_lines` computed in `check_gpu`. -/
def check_gpu_lines (shell_output : List Char) : List (List Char) :=
  purge_element (pyLines shell_output) []

/-- The failure email sent by `check_gpu` when the verdict is unhealthy and
`do_send_email` is truthy. -/
def gpu_error_emails (cfg : Config) (node : List Char) (do_send_email : Bool)
    (r : ExecResult) : List Email :=
  if do_send_email then
    [⟨cfg.email_to, cfg.email_from,
      strL "gpu-checker has detected an error on node " ++ node,
      command_report (ssh_command cfg node) r⟩]
  else []

/-- Source `check_gpu`.  `shell_output_lines[-1]` on an empty purged list
raises `IndexError`; `success = command_results.success and int(ssh_exit_code) == 0`
short-circuits, so `int` (which raises `ValueError` on a non-integer string)
is evaluated only when the outer exit status is zero.  The returned pair is
the verdict together with the recorded `send_email` calls. -/
def check_gpu (cfg : Config) (exec : List Char → ExecResult) (node : List Char)
    (do_send_email : Bool) : Except PyError (Bool × List Email) :=
  let command := ssh_command cfg node
  let r := exec command
  match (check_gpu_lines r.shell_output).getLast? with
  | none => Except.error PyError.indexError
  | some ssh_exit_code =>
    if shellSuccess r then
      match pyParseInt ssh_exit_code with
      | none => Except.error PyError.valueError
      | some v =>
        if v == 0 then Except.ok (true, [])
        else Except.ok (false, gpu_error_emails cfg node do_send_email r)
    else Except.ok (false, gpu_error_emails cfg node do_send_email r)

/-- `__main__` line 244: `do_send_email = str_to_bool(CONFIG['email']['enabled'])`.
The value is an `Option Bool` (possibly `None`); the call sites apply Python
truthiness (`pyTruthy`). -/
def main_do_send_email (enabled : List Char) : Option Bool := str_to_bool enabled

/-- An in-memory configparser state: ordered sections, each an ordered list
of key/value pairs. -/
abbrev IniData := List (List Char × List (List Char × List Char))

/-- The default configuration written by `__main__` when no file exists
(lines 218-238 of the source). -/
def default_config : IniData :=
  [ (strL "nodes",
      [ (strL "states_to_check", strL "mixed,idle"),
        (strL "partitions_to_check", strL "gpu") ]),
    (strL "ssh",
      [ (strL "user", []),
        (strL "keyfile", []) ]),
    (strL "email",
      [ (strL "enabled", strL "False"),
        (strL "to", []),
        (strL "from", []),
        (strL "signature", []) ]),
    (strL "smtp_auth",
      [ (strL "hostname", []),
        (strL "port", []),
        (strL "user", []),
        (strL "password", []),
        (strL "is_ssl", strL "False") ]) ]

/-- Model of `configparser.ConfigParser.write` for flat string options:
each section as `[name]` followed by `key = value` lines and a blank line. -/
def iniWrite (cfg : IniData) : List Char :=
  (cfg.map (fun sec =>
      strL "[" ++ sec.1 ++ strL "]" ++ [Char.ofNat 10] ++
        (sec.2.map (fun kv => kv.1 ++ strL " = " ++ kv.2 ++ [Char.ofNat 10])).flatten ++
        [Char.ofNat 10])).flatten

/-- Split a list at the first occurrence of `sep` (the delimiter is dropped). -/
def splitFirst (sep : Char) : List Char → Option (List Char × List Char)
  | [] => none
  | c :: cs =>
    if c = sep then some ([], cs)
    else (splitFirst sep cs).map (fun p => (c :: p.1, p.2))

/-- Append a key/value pair to the last open section. -/
def iniAddKV : IniData → (List Char × List Char) → IniData
  | [], _ => []
  | [s], kv => [(s.1, s.2 ++ [kv])]
  | s :: rest, kv => s :: iniAddKV rest kv

/-- Model of one line of `configparser.ConfigParser.read`: blank lines are
skipped, `[name]` opens a section, `key = value` adds a stripped pair. -/
def iniReadLine (acc : IniData) (line : List Char) : IniData :=
  let t := pyStrip line
  if t = [] then acc
  else if t.headD ' ' = '[' ∧ t.getLast? = some ']' then
    acc ++ [((t.drop 1).dropLast, [])]
  else
    match splitFirst '=' t with
    | some kv => iniAddKV acc (pyStrip kv.1, pyStrip kv.2)
    | none => acc

/-- Model of `configparser.ConfigParser.read` on the flat key/value data this
program writes (no continuation lines, comments or interpolation). -/
def iniRead (s : List Char) : IniData := (pyLines s).foldl iniReadLine []

/-- Empty configuration used as a concrete test fixture. -/
def cfg0 : Config := ⟨[], [], [], [], []⟩

/-- Oracle: every command succeeds with empty output. -/
def execOk : List Char → ExecResult := fun _ => ⟨[], [], 0⟩

/-- Oracle: every command fails with exit status 1 and empty output. -/
def execFail : List Char → ExecResult := fun _ => ⟨[], [], 1⟩

/-- Oracle for a probe whose ssh connection fails: outer exit status 255 and
no output at all (no echoed exit-status line). -/
def execEmpty255 : List Char → ExecResult := fun _ => ⟨[], [], 255⟩

/-- Oracle for a probe that succeeds but leaves non-integer trailing output. -/
def execAbc : List Char → ExecResult := fun _ => ⟨strL "abc", [], 0⟩

/-- Oracle for a healthy probe: outer exit status 0, echoed remote status 0. -/
def execZero : List Char → ExecResult := fun _ => ⟨strL "0" ++ [Char.ofNat 10], [], 0⟩

/-- Oracle for an unreachable node that still echoes the local 255 status. -/
def execEcho255 : List Char → ExecResult :=
  fun _ => ⟨strL "255" ++ [Char.ofNat 10], [], 255⟩

instance {ε α : Type} [DecidableEq ε] [DecidableEq α] : DecidableEq (Except ε α) :=
  fun x y =>
    match x, y with
    | Except.error e, Except.error f =>
      if h : e = f then Decidable.isTrue (h ▸ rfl)
      else Decidable.isFalse (fun hc => h (by cases hc; rfl))
    | Except.ok a, Except.ok b =>
      if h : a = b then Decidable.isTrue (h ▸ rfl)
      else Decidable.isFalse (fun hc => h (by cases hc; rfl))
    | Except.error _, Except.ok _ => Decidable.isFalse (fun hc => Except.noConfusion hc)
    | Except.ok _, Except.error _ => Decidable.isFalse (fun hc => Except.noConfusion hc)

/-- Spec-side notion (4.2): "the first whitespace-delimited token" of a line. -/
def spec_first_token (line : List Char) : List Char :=
  (line.dropWhile isPyWs).takeWhile (fun c => !(isPyWs c))

/-- A well-formed scheduler output line: its leading space-delimited field is
nonempty and contains no whitespace character (in particular the line is
nonempty, does not start with a space or tab, and its first token is tab-free:
real `sinfo -N --noheader` lines have this shape). -/
def wellFormedLine (line : List Char) : Bool :=
  !(line.takeWhile (fun c => c != ' ')).isEmpty &&
    (line.takeWhile (fun c => c != ' ')).all (fun c => !(isPyWs c))

/-- Spec-side healthy verdict (4.3): "the conjunction of: the outer command's
own exit status was zero, AND the last non-blank line of captured stdout (the
echoed remote exit code) parses as zero." -/
def spec_probe_healthy (r : ExecResult) : Bool :=
  (r.exit_code == 0) &&
    (match (check_gpu_lines r.shell_output).getLast? with
     | none => false
     | some l => pyParseInt l == some 0)

/-- Claim C2 as stated: for every probe, `check_gpu` returns (never raises)
the verdict, and that verdict is the spec conjunction. -/
def C2_stated : Prop :=
  ∀ (cfg : Config) (exec : List Char → ExecResult) (node : List Char) (b : Bool),
    ∃ em, check_gpu cfg exec node b =
      Except.ok (spec_probe_healthy (exec (ssh_command cfg node)), em)

/-- Claim C6 as stated: `drain_node` returns a boolean reporting whether the
drain command's exit status is zero. -/
def C6_stated : Prop :=
  ∀ (cfg : Config) (exec : List Char → ExecResult) (node reason : List Char) (b : Bool),
    (drain_node cfg exec node reason b).1 =
      some (shellSuccess (exec (drain_command node reason)))

/-- Claim C9 as stated, final clause: an unrecognized boolean-like value is
signalled as a configuration error rather than silently treated as a boolean,
i.e. the program's email-enabled flag distinguishes it from the recognized
value `"no"`. -/
def C9_stated : Prop :=
  ∀ s : List Char, str_to_bool s = none →
    pyTruthy (main_do_send_email s) ≠ pyTruthy (main_do_send_email (strL "no"))

theorem pySplit_ne_nil (sep : Char) (l : List Char) : pySplit sep l ≠ [] := by
  cases l with
  | nil => simp [pySplit]
  | cons c cs =>
    by_cases h : c = sep <;> simp [pySplit, h]

theorem pySplit_headD (sep : Char) (l : List Char) :
    (pySplit sep l).headD [] = l.takeWhile (fun c => c != sep) := by
  induction l with
  | nil => rfl
  | cons c cs ih =>
    by_cases h : c = sep
    · subst h
      simp [pySplit, List.takeWhile_cons]
    · cases hs : pySplit sep cs with
      | nil => exact absurd hs (pySplit_ne_nil sep cs)
      | cons t ts =>
        have ih' : t = cs.takeWhile (fun c => c != sep) := by
          rw [hs] at ih
          simpa using ih
        have hb : (c != sep) = true := by simp [h]
        simp [pySplit, h, hs, List.takeWhile_cons, hb, ih']

theorem map_congr_mem {α β : Type} (l : List α) (f g : α → β)
    (h : ∀ a ∈ l, f a = g a) : l.map f = l.map g := by
  induction l with
  | nil => rfl
  | cons a as ih =>
    simp only [List.map_cons, h a (List.mem_cons_self a as)]
    rw [ih (fun b hb => h b (List.mem_cons_of_mem a hb))]

theorem takeWhile_space_of_no_ws (l : List Char)
    (h : ∀ c ∈ l.takeWhile (fun c => c != ' '), isPyWs c = false) :
    l.takeWhile (fun c => !(isPyWs c)) = l.takeWhile (fun c => c != ' ') := by
  induction l with
  | nil => rfl
  | cons c cs ih =>
    by_cases hc : c = ' '
    · subst hc
      simp [List.takeWhile_cons, isPyWs]
    · have hb : (c != ' ') = true := by simp [hc]
      have hmem : c ∈ (c :: cs).takeWhile (fun c => c != ' ') := by
        simp [List.takeWhile_cons, hb]
      have hcw : isPyWs c = false := h c hmem
      have htail : ∀ d ∈ cs.takeWhile (fun c => c != ' '), isPyWs d = false := by
        intro d hd
        exact h d (by simp [List.takeWhile_cons, hb]; exact Or.inr hd)
      simp [List.takeWhile_cons, hb, hcw, ih htail]

theorem shellSuccess_iff (r : ExecResult) : shellSuccess r = true ↔ r.exit_code = 0 := by
  simp [shellSuccess]

theorem isPrefixOf_append_self {α : Type} [BEq α] [LawfulBEq α] (l t : List α) :
    List.isPrefixOf l (l ++ t) = true := by
  induction l with
  | nil => simp [List.isPrefixOf]
  | cons a as ih => simp [List.isPrefixOf, ih]

theorem tok_eq_spec_first_token (line : List Char) (h : wellFormedLine line = true) :
    (pySplit ' ' line).headD [] = spec_first_token line := by
  rw [pySplit_headD]
  unfold wellFormedLine at h
  simp only [Bool.and_eq_true, List.all_eq_true, Bool.not_eq_true'] at h
  obtain ⟨hne, hall⟩ := h
  unfold spec_first_token
  cases line with
  | nil => rfl
  | cons c cs =>
    by_cases hc : c = ' '
    · subst hc
      simp [List.takeWhile_cons, List.isEmpty] at hne
    · have hb : (c != ' ') = true := by simp [hc]
      have hcw : isPyWs c = false := by
        apply hall
        simp [List.takeWhile_cons, hb]
      rw [List.dropWhile_cons_of_neg (by simp [hcw])]
      exact (takeWhile_space_of_no_ws (c :: cs) (fun d hd => hall d hd)).symm

/-- Claim C1 (code_bug evidence): at the claim's own failing input — outer
command exit status 255 with empty captured stdout (ssh connection failure,
no echoed exit-status line) — `check_gpu` does not return the verdict false:
`shell_output_lines[-1]` on the empty purged line list raises `IndexError`,
so the probe crashes instead of resolving to unhealthy. -/
theorem check_gpu_empty_output_index_error :
    check_gpu cfg0 execEmpty255 (strL "gpu03") true = Except.error PyError.indexError := by
  decide

/-- Claim C2 counterexample: the claim as stated is false.  With outer exit
status 0 and trailing stdout line `abc` (non-integer), `check_gpu` raises
`ValueError` from `int(ssh_exit_code)` instead of returning the verdict
false demanded by "every other combination ... yields the verdict false". -/
theorem check_gpu_verdict_claim_counterexample :
    ¬ C2_stated ∧
      check_gpu cfg0 execAbc (strL "gpu01") false = Except.error PyError.valueError := by
  constructor
  · intro h
    obtain ⟨em, hem⟩ := h cfg0 execAbc (strL "gpu01") false
    rw [show check_gpu cfg0 execAbc (strL "gpu01") false = Except.error PyError.valueError
      from by decide] at hem
    exact Except.noConfusion hem
  · decide

/-- Claim C2 (amended): whenever the captured stdout has a last non-empty
line, the verdict is true iff the outer exit status is zero and that line
parses as integer zero; a non-zero outer status yields the verdict false
without parsing the line (Python `and` short-circuits); a zero outer status
with a non-integer trailing line raises `ValueError` instead of returning
false. -/
theorem check_gpu_verdict_amended :
    ∀ (cfg : Config) (exec : List Char → ExecResult) (node : List Char) (b : Bool)
      (last : List Char),
      (check_gpu_lines (exec (ssh_command cfg node)).shell_output).getLast? = some last →
      ((check_gpu cfg exec node b = Except.ok (true, []) ↔
          ((exec (ssh_command cfg node)).exit_code = 0 ∧ pyParseInt last = some 0)) ∧
        ((exec (ssh_command cfg node)).exit_code ≠ 0 →
          check_gpu cfg exec node b =
            Except.ok (false, gpu_error_emails cfg node b (exec (ssh_command cfg node)))) ∧
        ((exec (ssh_command cfg node)).exit_code = 0 → pyParseInt last = none →
          check_gpu cfg exec node b = Except.error PyError.valueError)) := by
  intro cfg exec node b last hlast
  have hm : check_gpu cfg exec node b =
      match (check_gpu_lines (exec (ssh_command cfg node)).shell_output).getLast? with
      | none => Except.error PyError.indexError
      | some ssh_exit_code =>
        if shellSuccess (exec (ssh_command cfg node)) then
          match pyParseInt ssh_exit_code with
          | none => Except.error PyError.valueError
          | some v =>
            if v == 0 then Except.ok (true, [])
            else Except.ok (false,
              gpu_error_emails cfg node b (exec (ssh_command cfg node)))
        else Except.ok (false, gpu_error_emails cfg node b (exec (ssh_command cfg node))) := rfl
  rw [hlast] at hm
  have hcg : check_gpu cfg exec node b =
      if shellSuccess (exec (ssh_command cfg node)) = true then
        (match pyParseInt last with
          | none => Except.error PyError.valueError
          | some v =>
            if (v == 0) = true then Except.ok (true, [])
            else Except.ok (false,
              gpu_error_emails cfg node b (exec (ssh_command cfg node))))
      else Except.ok (false, gpu_error_emails cfg node b (exec (ssh_command cfg node))) := hm
  by_cases hs : shellSuccess (exec (ssh_command cfg node)) = true
  · have h0 : (exec (ssh_command cfg node)).exit_code = 0 := (shellSuccess_iff _).mp hs
    rw [if_pos hs] at hcg
    cases hp : pyParseInt last with
    | none =>
      rw [hp] at hcg
      have hcg2 : check_gpu cfg exec node b = Except.error PyError.valueError := hcg
      refine ⟨?_, fun hne => absurd h0 hne, fun _ _ => hcg2⟩
      rw [hcg2]
      constructor
      · intro hc; exact Except.noConfusion hc
      · rintro ⟨-, hz⟩; exact Option.noConfusion hz
    | some v =>
      rw [hp] at hcg
      have hcg2 : check_gpu cfg exec node b =
          if (v == 0) = true then Except.ok (true, [])
          else Except.ok (false,
            gpu_error_emails cfg node b (exec (ssh_command cfg node))) := hcg
      by_cases hv : v = 0
      · subst hv
        rw [if_pos (by simp)] at hcg2
        refine ⟨?_, fun hne => absurd h0 hne, fun _ hn => Option.noConfusion hn⟩
        rw [hcg2]
        simp [h0]
      · have hvb : ¬ ((v == 0) = true) := by simpa using hv
        rw [if_neg hvb] at hcg2
        refine ⟨?_, fun hne => absurd h0 hne, fun _ hn => Option.noConfusion hn⟩
        rw [hcg2]
        constructor
        · intro hc
          have h1 := (Except.ok.injEq _ _).mp hc
          have h2 : false = true := congrArg Prod.fst h1
          exact Bool.noConfusion h2
        · rintro ⟨-, hz⟩
          have hv0 : v = 0 := by simpa using hz
          exact absurd hv0 hv
  · have h0 : (exec (ssh_command cfg node)).exit_code ≠ 0 :=
      fun hc => hs ((shellSuccess_iff _).mpr hc)
    rw [if_neg hs] at hcg
    refine ⟨?_, fun _ => hcg, fun hc _ => absurd hc h0⟩
    rw [hcg]
    constructor
    · intro hc
      have h1 := (Except.ok.injEq _ _).mp hc
      have h2 : false = true := congrArg Prod.fst h1
      exact Bool.noConfusion h2
    · rintro ⟨hz, -⟩; exact absurd hz h0

/-- Claim C2 witness: a healthy probe — outer exit status 0, echoed remote
status `0` — yields the verdict true with no notification. -/
theorem check_gpu_verdict_amended_witness :
    check_gpu cfg0 execZero (strL "gpu01") false = Except.ok (true, []) :=
  (check_gpu_verdict_amended cfg0 execZero (strL "gpu01") false (strL "0")
    (by decide)).1.mpr ⟨rfl, by decide⟩

/-- Claim C3: on well-formed discovery output — every non-blank line has a
nonempty, whitespace-free leading field — `find_slurm_nodes` returns one node
name per non-blank line, order preserved, each equal to the first
whitespace-delimited token of its source line. -/
theorem find_slurm_nodes_wellformed_tokens :
    ∀ out : List Char,
      (∀ l ∈ purge_element (pyLines out) [], wellFormedLine l = true) →
      find_slurm_nodes_nodes out =
        (purge_element (pyLines out) []).map spec_first_token ∧
      (find_slurm_nodes_nodes out).length = (purge_element (pyLines out) []).length := by
  intro out h
  have hmap : find_slurm_nodes_nodes out =
      (purge_element (pyLines out) []).map spec_first_token := by
    unfold find_slurm_nodes_nodes nodesOfLines
    exact map_congr_mem _ _ _ (fun l hl => tok_eq_spec_first_token l (h l hl))
  exact ⟨hmap, by rw [hmap, List.length_map]⟩

/-- Claim C3 witness: the spec scenario — two non-blank `sinfo` lines yield
exactly the two leading node names in order. -/
theorem find_slurm_nodes_wellformed_tokens_witness :
    (∀ l ∈ purge_element (pyLines (strL "gpu01 idle* gpu\ngpu02 mixed gpu")) [],
        wellFormedLine l = true) ∧
      find_slurm_nodes_nodes (strL "gpu01 idle* gpu\ngpu02 mixed gpu") =
        [strL "gpu01", strL "gpu02"] :=
  ⟨by decide, by
    have h := find_slurm_nodes_wellformed_tokens
      (strL "gpu01 idle* gpu\ngpu02 mixed gpu") (by decide)
    rw [h.1]
    decide⟩

/-- Claim C4: blank (empty) lines contribute zero entries — the node list of
any output is computed from its line list, and inserting an empty line
anywhere in that line list leaves the node list unchanged. -/
theorem find_slurm_nodes_blank_lines_zero_entries :
    ∀ (out : List Char) (ls1 ls2 : List (List Char)),
      find_slurm_nodes_nodes out = nodesOfLines (pyLines out) ∧
      nodesOfLines (ls1 ++ [] :: ls2) = nodesOfLines (ls1 ++ ls2) := by
  intro out ls1 ls2
  refine ⟨rfl, ?_⟩
  unfold nodesOfLines purge_element
  rw [List.filter_append, List.filter_append, List.filter_cons]
  simp

/-- Claim C5: `find_slurm_nodes` raises (an `Except.error` carrying the
command report) exactly when the `sinfo` command's exit status is non-zero;
on a zero exit status it returns the parsed node list — in particular an
empty match is returned as `ok []`, not an error. -/
theorem find_slurm_nodes_error_iff_nonzero_exit :
    ∀ (exec : List Char → ExecResult) (states partitions : List Char),
      ((∃ e, find_slurm_nodes exec states partitions = Except.error e) ↔
        (exec (sinfo_command states partitions)).exit_code ≠ 0) ∧
      ((exec (sinfo_command states partitions)).exit_code = 0 →
        find_slurm_nodes exec states partitions =
          Except.ok (find_slurm_nodes_nodes
            (exec (sinfo_command states partitions)).shell_output)) := by
  intro exec states partitions
  by_cases h : shellSuccess (exec (sinfo_command states partitions)) = true
  · have h0 : (exec (sinfo_command states partitions)).exit_code = 0 :=
      (shellSuccess_iff _).mp h
    have hok : find_slurm_nodes exec states partitions =
        Except.ok (find_slurm_nodes_nodes
          (exec (sinfo_command states partitions)).shell_output) := by
      simp [find_slurm_nodes, h]
    refine ⟨⟨?_, fun hne => absurd h0 hne⟩, fun _ => hok⟩
    rintro ⟨e, he⟩
    rw [hok] at he
    exact Except.noConfusion he
  · have h0 : (exec (sinfo_command states partitions)).exit_code ≠ 0 :=
      fun hc => h ((shellSuccess_iff _).mpr hc)
    have herr : find_slurm_nodes exec states partitions =
        Except.error (command_report (sinfo_command states partitions)
          (exec (sinfo_command states partitions))) := by
      simp [find_slurm_nodes, h]
    exact ⟨⟨fun _ => h0, fun _ => ⟨_, herr⟩⟩, fun hc => absurd hc h0⟩

/-- Claim C5 witness: a successful query matching zero nodes returns the
empty list without raising. -/
theorem find_slurm_nodes_error_iff_nonzero_exit_witness :
    find_slurm_nodes execOk (strL "mixed,idle") (strL "gpu") =
      Except.ok (find_slurm_nodes_nodes
        (execOk (sinfo_command (strL "mixed,idle") (strL "gpu"))).shell_output) :=
  (find_slurm_nodes_error_iff_nonzero_exit execOk (strL "mixed,idle") (strL "gpu")).2 rfl

/-- Claim C6 counterexample: the claim as stated is false — `drain_node` has
no `return` statement, so it returns `None` (never a boolean), shown at the
concrete input node `gpu01` with a drain command that succeeds. -/
theorem drain_node_stated_counterexample :
    ¬ C6_stated ∧
      (drain_node cfg0 execOk (strL "gpu01") (strL "nvidia-smi failure") true).1 = none := by
  constructor
  · intro h
    have hx := h cfg0 execOk (strL "gpu01") (strL "nvidia-smi failure") true
    rw [show (drain_node cfg0 execOk (strL "gpu01") (strL "nvidia-smi failure") true).1 =
      none from rfl] at hx
    exact Option.noConfusion hx
  · rfl

/-- Claim C6 (amended): `drain_node` returns `None` rather than a boolean;
whether the scheduler accepted the mutation (drain command exit status zero)
is reflected only in the notification subject chosen when email is enabled. -/
theorem drain_node_returns_none_amended :
    ∀ (cfg : Config) (exec : List Char → ExecResult) (node reason : List Char) (b : Bool),
      (drain_node cfg exec node reason b).1 = none ∧
      ((drain_node cfg exec node reason true).2.map Email.subject =
        [if shellSuccess (exec (drain_command node reason)) = true
         then strL "gpu-checker has drained node " ++ node
         else strL "ACTION REQUIRED: gpu-checker wanted to drain node " ++ node ++
           strL ", but failed"]) := by
  intro cfg exec node reason b
  refine ⟨rfl, ?_⟩
  by_cases h : shellSuccess (exec (drain_command node reason)) = true
  · simp [drain_node, h]
  · have hb : shellSuccess (exec (drain_command node reason)) = false := by
      simpa using h
    simp [drain_node, hb]

/-- Claim C7: with notification enabled, `drain_node` produces exactly one
notification, whose subject is the success subject when the drain command's
exit status is zero and the `ACTION REQUIRED`-prefixed failure subject when
it is non-zero. -/
theorem drain_node_single_notification_subject :
    ∀ (cfg : Config) (exec : List Char → ExecResult) (node reason : List Char),
      (drain_node cfg exec node reason true).2.length = 1 ∧
      ((drain_node cfg exec node reason true).2.map Email.subject =
        [if shellSuccess (exec (drain_command node reason)) = true
         then strL "gpu-checker has drained node " ++ node
         else strL "ACTION REQUIRED: gpu-checker wanted to drain node " ++ node ++
           strL ", but failed"]) ∧
      ((exec (drain_command node reason)).exit_code ≠ 0 →
        List.isPrefixOf (strL "ACTION REQUIRED")
          (((drain_node cfg exec node reason true).2.headD ⟨[], [], [], []⟩).subject) =
          true) := by
  intro cfg exec node reason
  by_cases h : shellSuccess (exec (drain_command node reason)) = true
  · have h0 : (exec (drain_command node reason)).exit_code = 0 := (shellSuccess_iff _).mp h
    refine ⟨by simp [drain_node, h], by simp [drain_node, h], fun hne => absurd h0 hne⟩
  · have hb : shellSuccess (exec (drain_command node reason)) = false := by simpa using h
    refine ⟨by simp [drain_node, hb], by simp [drain_node, hb], fun _ => ?_⟩
    have hsubj : ((drain_node cfg exec node reason true).2.headD ⟨[], [], [], []⟩).subject =
        strL "ACTION REQUIRED" ++
          (strL ": gpu-checker wanted to drain node " ++ node ++ strL ", but failed") := by
      simp [drain_node, hb]
      rfl
    rw [hsubj]
    exact isPrefixOf_append_self _ _

/-- Claim C7 witness: a failing drain command yields the single notification
with the `ACTION REQUIRED`-prefixed subject. -/
theorem drain_node_single_notification_subject_witness :
    List.isPrefixOf (strL "ACTION REQUIRED")
      (((drain_node cfg0 execFail (strL "gpu01") (strL "nvidia-smi failure")
          true).2.headD ⟨[], [], [], []⟩).subject) = true :=
  (drain_node_single_notification_subject cfg0 execFail (strL "gpu01")
    (strL "nvidia-smi failure")).2.2 (by decide)

/-- Claim C8: writing the default configuration file created at startup and
reading it back yields the same values for every section and key
(`nodes`, `ssh`, `email`, `smtp_auth`). -/
theorem default_config_roundtrip : iniRead (iniWrite default_config) = default_config := by
  decide

/-- Claim C9 counterexample: the claim as stated is false for its
error-signalling clause — the unrecognized value `maybe` yields `None` from
`str_to_bool`, and the program's email-enabled flag then treats it exactly
like the recognized value `no` (boolean false), with no configuration error
signalled anywhere. -/
theorem str_to_bool_stated_counterexample :
    ¬ C9_stated ∧ str_to_bool (strL "maybe") = none ∧
      pyTruthy (main_do_send_email (strL "maybe")) = false := by
  refine ⟨fun h => ?_, rfl, rfl⟩
  exact h (strL "maybe") rfl rfl

/-- Claim C9 (amended): `str_to_bool` maps (case-insensitively) the
true-list to `True` and the false-list to `False`, and returns `None` for
every other value; no error is raised — the `None` is passed into the email
flag, where Python truthiness silently treats it as false. -/
theorem str_to_bool_amended :
    ∀ s : List Char,
      ((s.map Char.toLower ∈ true_strings) → str_to_bool s = some true) ∧
      ((s.map Char.toLower ∉ true_strings) → (s.map Char.toLower ∈ false_strings) →
        str_to_bool s = some false) ∧
      ((s.map Char.toLower ∉ true_strings) → (s.map Char.toLower ∉ false_strings) →
        str_to_bool s = none ∧ pyTruthy (main_do_send_email s) = false) := by
  intro s
  refine ⟨fun h1 => ?_, fun h1 h2 => ?_, fun h1 h2 => ?_⟩
  · simp [str_to_bool, h1]
  · simp [str_to_bool, h1, h2]
  · constructor
    · simp [str_to_bool, h1, h2]
    · simp [main_do_send_email, pyTruthy, str_to_bool, h1, h2]

/-- Claim C9 witness: the recognized uppercase value `YES` parses to true. -/
theorem str_to_bool_amended_witness : str_to_bool (strL "YES") = some true :=
  (str_to_bool_amended (strL "YES")).1 (by decide)

/-- Claim C10 (implicit behavior): the blank-line purge removes only lines
that are exactly empty and tokenization splits on the space character only;
hence a line that starts with a space or tab, or consists solely of
spaces/tabs, still contributes one entry — its space-delimited head — which
is the empty string or a tab-containing fragment, not a real token. -/
theorem find_slurm_nodes_whitespace_line_artifacts :
    ∀ (pre post : List (List Char)) (l : List Char),
      l ≠ [] →
      (l.head? = some ' ' ∨ l.head? = some (Char.ofNat 9) ∨
        ∀ c ∈ l, c = ' ' ∨ c = Char.ofNat 9) →
      nodesOfLines (pre ++ l :: post) =
        nodesOfLines pre ++ l.takeWhile (fun c => c != ' ') :: nodesOfLines post ∧
      (l.takeWhile (fun c => c != ' ') = [] ∨
        Char.ofNat 9 ∈ l.takeWhile (fun c => c != ' ')) := by
  intro pre post l hne hws
  constructor
  · unfold nodesOfLines purge_element
    have hb : (l != ([] : List Char)) = true := by simpa using hne
    rw [List.filter_append, List.filter_cons, if_pos hb, List.map_append, List.map_cons,
      pySplit_headD]
  · cases l with
    | nil => exact absurd rfl hne
    | cons c cs =>
      rcases hws with h | h | h
      · left
        have hc : c = ' ' := by simpa using h
        subst hc
        simp [List.takeWhile_cons]
      · right
        have hc : c = Char.ofNat 9 := by simpa using h
        subst hc
        rw [List.takeWhile_cons, if_pos (by decide)]
        exact List.mem_cons_self _ _
      · rcases h c (List.mem_cons_self c cs) with hc | hc
        · left
          subst hc
          simp [List.takeWhile_cons]
        · right
          subst hc
          rw [List.takeWhile_cons, if_pos (by decide)]
          exact List.mem_cons_self _ _

/-- Claim C10 witness: the line `" gpu01 idle"` (leading space) is not
discarded and contributes the empty string as its node name. -/
theorem find_slurm_nodes_whitespace_line_artifacts_witness :
    nodesOfLines ([] ++ strL " gpu01 idle" :: []) =
      nodesOfLines [] ++
        (strL " gpu01 idle").takeWhile (fun c => c != ' ') :: nodesOfLines [] ∧
    ((strL " gpu01 idle").takeWhile (fun c => c != ' ') = [] ∨
      Char.ofNat 9 ∈ (strL " gpu01 idle").takeWhile (fun c => c != ' ')) :=
  find_slurm_nodes_whitespace_line_artifacts [] [] (strL " gpu01 idle")
    (by decide) (Or.inl (by decide))
